/-
Verification of the OMEN SAMS monitoring core (detectors, alerters, engine
dispatch) against its specification.  The Python sources under src/sams are
shallowly embedded: external commands, file reads and HTTP deliveries are
modelled as environment-supplied outcomes (`Except PyExn _` where the Python
call can raise), Python dicts preserving insertion order are modelled as
association lists, and Python sets as `Finset`.
-/
import Mathlib

set_option autoImplicit false

namespace Sams

/-! ## Python-level primitives -/

/-- A Python exception (the detectors/alerters never inspect the payload). -/
inductive PyExn where
  | err (msg : String)
deriving DecidableEq, Repr

/-- Result of `subprocess.run(..., capture_output=True, text=True, check=False)`. -/
structure CmdResult where
  returncode : Int
  stdout : String
deriving DecidableEq, Repr

/-- Outcome of one `subprocess.run` call: normal completion or a raised
exception (missing binary, timeout, ...). -/
abbrev CmdOutcome := Except PyExn CmdResult

/-- Scalar/list values stored in a `SecurityEvent.details` dict. -/
inductive PyVal where
  | str (s : String)
  | nat (n : Nat)
  | bool (b : Bool)
  | strList (l : List String)
deriving DecidableEq, Repr

/-- Python `str(value)` on a detail value. -/
def pyStr : PyVal → String
  | .str s => s
  | .nat n => toString n
  | .bool b => if b then "True" else "False"
  | .strList l =>
      let q := (Char.ofNat 39).toString
      "[" ++ String.intercalate ", " (l.map (fun s => q ++ s ++ q)) ++ "]"

/-- `SecurityEvent` as constructed by detectors (base.py).  The construction
timestamp does not influence any detector/alerter decision modelled here and
is omitted; `source` defaults to "localhost". -/
structure SecurityEvent where
  event_type : String
  severity : String
  message : String
  details : List (String × PyVal)
  source : String := "localhost"
deriving DecidableEq, Repr

/-! ## String helpers mirroring Python's `in`, `split`, `strip`, `lower` -/

/-- `charsHavePre p c` : `p` is a leading segment of `c` (char lists). -/
def charsHavePre : List Char → List Char → Bool
  | [], _ => true
  | _ :: _, [] => false
  | p :: ps, c :: cs => p == c && charsHavePre ps cs

/-- Does `pat` occur as a contiguous run inside the char list? -/
def charsContain (pat : List Char) : List Char → Bool
  | [] => charsHavePre pat []
  | c :: cs => charsHavePre pat (c :: cs) || charsContain pat cs

/-- Python `pat in s` (substring containment). -/
def strContains (s pat : String) : Bool := charsContain pat.data s.data

/-- Splitting accumulator loop: current (reversed) segment, remaining input. -/
def splitLinesAux : List Char → List Char → List String
  | acc, [] => [String.mk acc.reverse]
  | acc, c :: cs =>
    if c = '\n' then String.mk acc.reverse :: splitLinesAux [] cs
    else splitLinesAux (c :: acc) cs

/-- Python `s.split('\n')` (in particular `"".split('\n') == [""]`). -/
def splitLines (s : String) : List String := splitLinesAux [] s.data

/-- Python `s.lower()` (ASCII range, which covers all log keywords used). -/
def strLower (s : String) : String := s.map Char.toLower

/-- Python `s.upper()` (ASCII range). -/
def strUpper (s : String) : String := s.map Char.toUpper

/-! ## A small matching kernel for the regular expressions in the source

Every regex in src/sams alternates character classes that are pairwise
disjoint with the following literal (digits before `'.'`, whitespace before a
word character, ...), so greedy maximal munch coincides with Python's
backtracking semantics; `reSearch` scans for the leftmost matching start
position exactly like `re.search`. -/

/-- Python's `\s` class (ASCII part). -/
def isSpaceCh (c : Char) : Bool :=
  c == ' ' || c == '\t' || c == '\n' || c == '\r' || c == '\x0b' || c == '\x0c'

/-- Python's `\d` class (ASCII part). -/
def isDigitCh (c : Char) : Bool := '0' ≤ c && c ≤ '9'

/-- Python's `\w` class (ASCII part; the extracted usernames/IPs are ASCII). -/
def isWordCh (c : Char) : Bool := c.isAlpha || isDigitCh c || c == '_'

/-- Consume the literal `lit` from the front, or fail. -/
def stripLit : List Char → List Char → Option (List Char)
  | [], cs => some cs
  | _ :: _, [] => none
  | p :: ps, c :: cs => if p == c then stripLit ps cs else none

/-- Greedily consume one-or-more characters of class `p` (a `X+` atom). -/
def munch1 (p : Char → Bool) (cs : List Char) : Option (List Char × List Char) :=
  let tk := cs.takeWhile p
  if tk.isEmpty then none else some (tk, cs.drop tk.length)

/-- `re.search`: try the position matcher at each start position, leftmost
match wins. -/
def reSearch {α : Type} (f : List Char → Option α) : List Char → Option α
  | [] => f []
  | c :: cs =>
    match f (c :: cs) with
    | some r => some r
    | none => reSearch f cs

/-- `\d+\.\d+\.\d+\.\d+` at the current position; returns the matched text. -/
def matchIpAt (cs : List Char) : Option (List Char × List Char) := do
  let (d1, cs) ← munch1 isDigitCh cs
  let cs ← stripLit ['.'] cs
  let (d2, cs) ← munch1 isDigitCh cs
  let cs ← stripLit ['.'] cs
  let (d3, cs) ← munch1 isDigitCh cs
  let cs ← stripLit ['.'] cs
  let (d4, cs) ← munch1 isDigitCh cs
  some (d1 ++ '.' :: d2 ++ '.' :: d3 ++ '.' :: d4, cs)

/-- `from\s+(\d+\.\d+\.\d+\.\d+)` at the current position. -/
def matchFromIpAt (cs : List Char) : Option String := do
  let cs ← stripLit "from".data cs
  let (_, cs) ← munch1 isSpaceCh cs
  let (ip, _) ← matchIpAt cs
  some (String.mk ip)

/-- `re.search(r'from\s+(\d+\.\d+\.\d+\.\d+)', line)`, group 1. -/
def searchFromIp (line : String) : Option String := reSearch matchFromIpAt line.data

/-- `invalid\s+user\s+` (the optional group inside the username regex). -/
def matchInvalidUserAt (cs : List Char) : Option (List Char) := do
  let cs ← stripLit "invalid".data cs
  let (_, cs) ← munch1 isSpaceCh cs
  let cs ← stripLit "user".data cs
  let (_, cs) ← munch1 isSpaceCh cs
  some cs

/-- `for\s+(?:invalid\s+user\s+)?(\w+)` at the current position.  If the
optional group matches but no word character follows, Python backtracks and
retries without the group. -/
def matchForUserAt (cs : List Char) : Option String := do
  let cs ← stripLit "for".data cs
  let (_, cs) ← munch1 isSpaceCh cs
  let fallback := (munch1 isWordCh cs).map (fun x => String.mk x.1)
  match matchInvalidUserAt cs with
  | some cs1 =>
    match munch1 isWordCh cs1 with
    | some (w, _) => some (String.mk w)
    | none => fallback
  | none => fallback

/-- `re.search(r'for\s+(?:invalid\s+user\s+)?(\w+)', line)`, group 1. -/
def searchForUser (line : String) : Option String := reSearch matchForUserAt line.data

/-! ## AuthFailureDetector (auth_failures.py) -/

/-- Insertion-order-preserving `defaultdict(list)` append:
`failures[key].append(line)`. -/
def groupAppend {κ : Type} [DecidableEq κ] (m : List (κ × List String)) (k : κ)
    (line : String) : List (κ × List String) :=
  if (m.lookup k).isSome then
    m.map (fun kv => if kv.1 = k then (kv.1, kv.2 ++ [line]) else kv)
  else m ++ [(k, [line])]

/-- The grouping loop of `_check_ssh_failures`: failure lines bucketed by the
extracted (source-IP, username) pair, "unknown" when extraction fails. -/
def groupSshFailures (lines : List String) : List ((String × String) × List String) :=
  lines.foldl
    (fun m line =>
      if strContains line "Failed password" || strContains line "authentication failure" then
        let ip := (searchFromIp line).getD "unknown"
        let user := (searchForUser line).getD "unknown"
        groupAppend m (ip, user) line
      else m)
    []

/-- The `auth_failure` event emitted for an over-threshold SSH group. -/
def sshFailureEvent (ip user : String) (count threshold : Nat) : SecurityEvent where
  event_type := "auth_failure"
  severity := "high"
  message := "Multiple SSH authentication failures detected from " ++ ip ++ " for user " ++ user
  details :=
    [("source_ip", .str ip), ("username", .str user), ("failure_count", .nat count),
     ("threshold", .nat threshold), ("service", .str "ssh")]

/-- Body of `_check_ssh_failures` (inside the `try`): journalctl outcome in,
events out; a raised exception propagates. -/
def checkSshFailuresBody (threshold : Nat) (r : CmdOutcome) : Except PyExn (List SecurityEvent) := do
  let res ← r
  if res.returncode ≠ 0 then return []
  let failures := groupSshFailures (splitLines res.stdout)
  return failures.filterMap (fun kv =>
    if kv.2.length ≥ threshold then
      some (sshFailureEvent kv.1.1 kv.1.2 kv.2.length threshold)
    else none)

/-- `_check_ssh_failures`: the surrounding `try/except` degrades any raised
exception to the events gathered so far (none). -/
def checkSshFailures (threshold : Nat) (r : CmdOutcome) : List SecurityEvent :=
  match checkSshFailuresBody threshold r with
  | .ok evs => evs
  | .error _ => []

/-- `(\w+)\s*:` at the current position (sudo username extraction). -/
def matchWordColonAt (cs : List Char) : Option String := do
  let (w, cs) ← munch1 isWordCh cs
  let cs := cs.dropWhile isSpaceCh
  let _ ← stripLit [':'] cs
  some (String.mk w)

/-- `re.search(r'(\w+)\s*:', line)`, group 1. -/
def searchWordColon (line : String) : Option String := reSearch matchWordColonAt line.data

/-- The `auth_failure` event emitted for an over-threshold sudo group. -/
def sudoFailureEvent (user : String) (count threshold : Nat) : SecurityEvent where
  event_type := "auth_failure"
  severity := "medium"
  message := "Multiple sudo authentication failures for user " ++ user
  details :=
    [("username", .str user), ("failure_count", .nat count),
     ("threshold", .nat threshold), ("service", .str "sudo")]

/-- Body of `_check_sudo_failures` (inside the `try`). -/
def checkSudoFailuresBody (threshold : Nat) (r : CmdOutcome) : Except PyExn (List SecurityEvent) := do
  let res ← r
  if res.returncode ≠ 0 then return []
  let failures := (splitLines res.stdout).foldl
    (fun (m : List (String × List String)) line =>
      if strContains (strLower line) "authentication failure"
          || strContains (strLower line) "incorrect password" then
        groupAppend m ((searchWordColon line).getD "unknown") line
      else m)
    []
  return failures.filterMap (fun kv =>
    if kv.2.length ≥ threshold then some (sudoFailureEvent kv.1 kv.2.length threshold)
    else none)

/-- `_check_sudo_failures` with its `try/except`. -/
def checkSudoFailures (threshold : Nat) (r : CmdOutcome) : List SecurityEvent :=
  match checkSudoFailuresBody threshold r with
  | .ok evs => evs
  | .error _ => []

/-- Environment of one `AuthFailureDetector.detect` call: the outcomes of its
two journalctl invocations. -/
structure AuthEnv where
  sshJournal : CmdOutcome
  sudoJournal : CmdOutcome

/-- `AuthFailureDetector.detect` (the `last_check` bookkeeping has no effect
on emitted events and is not modelled). -/
def authDetect (enabled : Bool) (threshold : Nat) (env : AuthEnv) :
    Except PyExn (List SecurityEvent) :=
  if !enabled then .ok []
  else .ok (checkSshFailures threshold env.sshJournal
            ++ checkSudoFailures threshold env.sudoJournal)

/-! ## PrivilegeEscalationDetector (privilege_escalation.py) -/

/-- `COMMAND=(.+)` at the current position. -/
def matchCommandAt (cs : List Char) : Option String := do
  let cs ← stripLit "COMMAND=".data cs
  let (w, _) ← munch1 (fun _ => true) cs
  some (String.mk w)

/-- `re.search(r'COMMAND=(.+)', line)`, group 1 (lines hold no newline). -/
def searchCommand (line : String) : Option String := reSearch matchCommandAt line.data

/-- The `privilege_escalation` event for an unauthorized sudo attempt. -/
def unauthorizedSudoEvent (user command : String) : SecurityEvent where
  event_type := "privilege_escalation"
  severity := "high"
  message := "Unauthorized sudo attempt by user " ++ user
  details := [("username", .str user), ("command", .str command), ("method", .str "sudo")]

/-- Body of `_check_unauthorized_sudo` (inside the `try`). -/
def checkUnauthorizedSudoBody (r : CmdOutcome) : Except PyExn (List SecurityEvent) := do
  let res ← r
  if res.returncode ≠ 0 then return []
  return (splitLines res.stdout).filterMap (fun line =>
    if strContains line "NOT in sudoers" || strContains line "command not allowed" then
      some (unauthorizedSudoEvent ((searchWordColon line).getD "unknown")
        ((searchCommand line).getD "unknown"))
    else none)

/-- `_check_unauthorized_sudo` with its `try/except`. -/
def checkUnauthorizedSudo (r : CmdOutcome) : List SecurityEvent :=
  match checkUnauthorizedSudoBody r with
  | .ok evs => evs
  | .error _ => []

/-- The line set `result.stdout.strip().split('\n')` added to the SUID
accumulator by one `find` run. -/
def findLinesOf (res : CmdResult) : Finset String := (splitLines res.stdout.trim).toFinset

/-- `_get_suid_files`: both `find` runs live inside one `try`; an exception at
the second run keeps the paths already gathered from the first, and the final
comprehension drops empty strings. -/
def getSuidFiles (r4000 r2000 : CmdOutcome) : Finset String :=
  (match r4000 with
   | .error _ => (∅ : Finset String)
   | .ok a =>
     match r2000 with
     | .error _ => findLinesOf a
     | .ok b => findLinesOf a ∪ findLinesOf b).filter (fun f => f ≠ "")

/-- The single `critical` event listing all new SUID/SGID paths
(`list(new_files)` iterates a Python set in unspecified order; modelled as the
sorted listing). -/
def suidChangeEvent (newFiles : Finset String) : SecurityEvent where
  event_type := "privilege_escalation"
  severity := "critical"
  message := "New SUID/SGID files detected: " ++ toString newFiles.card ++ " files"
  details :=
    [("new_files", .strList (newFiles.sort (· ≤ ·))), ("method", .str "suid_change")]

/-- `_check_suid_changes`: diff the freshly computed inventory against the
baseline; on any addition emit one event and advance the baseline. -/
def checkSuidChanges (r4000 r2000 : CmdOutcome) (known : Finset String) :
    List SecurityEvent × Finset String :=
  let current := getSuidFiles r4000 r2000
  let newFiles := current \ known
  if newFiles = ∅ then ([], known)
  else ([suidChangeEvent newFiles], current)

/-- `by\s+(\w+)` at the current position. -/
def matchByUserAt (cs : List Char) : Option String := do
  let cs ← stripLit "by".data cs
  let (_, cs) ← munch1 isSpaceCh cs
  let (w, _) ← munch1 isWordCh cs
  some (String.mk w)

/-- `re.search(r'by\s+(\w+)', line)`, group 1. -/
def searchByUser (line : String) : Option String := reSearch matchByUserAt line.data

/-- `for\s+(\w+)` at the current position (su target user extraction). -/
def matchForWordAt (cs : List Char) : Option String := do
  let cs ← stripLit "for".data cs
  let (_, cs) ← munch1 isSpaceCh cs
  let (w, _) ← munch1 isWordCh cs
  some (String.mk w)

/-- `re.search(r'for\s+(\w+)', line)`, group 1. -/
def searchForWord (line : String) : Option String := reSearch matchForWordAt line.data

/-- The `medium` informational event for an `su` switch. -/
def suUsageEvent (user target : String) : SecurityEvent where
  event_type := "privilege_escalation"
  severity := "medium"
  message := "User " ++ user ++ " switched to " ++ target ++ " using su"
  details := [("username", .str user), ("target_user", .str target), ("method", .str "su")]

/-- One line of the `_check_su_usage` scan loop.  Note: the filter admits both
"session opened" and "authentication failure" lines, but an event is only
appended when the line has an extractable `by <user>` AND contains
"session opened" — failed switches fall through silently. -/
def suUsageLineEvents (line : String) : List SecurityEvent :=
  if strContains line "su:"
      && (strContains line "session opened" || strContains line "authentication failure") then
    match searchByUser line with
    | some user =>
      let target := (searchForWord line).getD "root"
      if strContains line "session opened" then [suUsageEvent user target] else []
    | none => []
  else []

/-- Body of `_check_su_usage` (inside the `try`). -/
def checkSuUsageBody (r : CmdOutcome) : Except PyExn (List SecurityEvent) := do
  let res ← r
  if res.returncode ≠ 0 then return []
  return (splitLines res.stdout).flatMap suUsageLineEvents

/-- `_check_su_usage` with its `try/except`. -/
def checkSuUsage (r : CmdOutcome) : List SecurityEvent :=
  match checkSuUsageBody r with
  | .ok evs => evs
  | .error _ => []

/-- Environment of one `PrivilegeEscalationDetector.detect` call. -/
structure PrivEnv where
  sudoJournal : CmdOutcome
  find4000 : CmdOutcome
  find2000 : CmdOutcome
  fullJournal : CmdOutcome

/-- `PrivilegeEscalationDetector.detect`; the state is `known_suid_files`. -/
def privDetect (enabled checkSuid : Bool) (env : PrivEnv) (known : Finset String) :
    Except PyExn (List SecurityEvent × Finset String) :=
  if !enabled then .ok ([], known)
  else
    let sudoEvents := checkUnauthorizedSudo env.sudoJournal
    let (suidEvents, known') :=
      if checkSuid then checkSuidChanges env.find4000 env.find2000 known else ([], known)
    let suEvents := checkSuUsage env.fullJournal
    .ok (sudoEvents ++ suidEvents ++ suEvents, known')

/-! ## NetworkAnomalyDetector (network_anomalies.py) -/

/-- Digit run to the number it denotes (Python `int(...)` on a `\d+` group). -/
def digitsToNat (ds : List Char) : Nat := ds.foldl (fun n c => n * 10 + (c.toNat - 48)) 0

/-- `:(\d+)\s+` at the current position (listening-socket port extraction). -/
def matchColonPortAt (cs : List Char) : Option Nat := do
  let cs ← stripLit [':'] cs
  let (d, cs) ← munch1 isDigitCh cs
  let _ ← munch1 isSpaceCh cs
  some (digitsToNat d)

/-- `re.search(r':(\d+)\s+', line)`, group 1 as an integer. -/
def searchColonPort (line : String) : Option Nat := reSearch matchColonPortAt line.data

/-- `_get_listening_ports`: every per-line first `:(\d+)\s+` match over the
`ss -tlnp` output, collected as a set; an exception yields the ports gathered
so far (the subprocess call precedes all additions, hence none). -/
def getListeningPorts (r : CmdOutcome) : Finset Nat :=
  match r with
  | .error _ => ∅
  | .ok res => ((splitLines res.stdout).filterMap searchColonPort).toFinset

/-- `users:\(\("([^"]+)"` at the current position (owning process name). -/
def matchUsersProcAt (cs : List Char) : Option String := do
  let cs ← stripLit "users:((\"".data cs
  let (w, cs) ← munch1 (fun c => c ≠ '"') cs
  let _ ← stripLit ['"'] cs
  some (String.mk w)

/-- `_get_port_process`: process name for a port, "unknown" on any failure. -/
def getPortProcess (r : CmdOutcome) : String :=
  match r with
  | .error _ => "unknown"
  | .ok res => (reSearch matchUsersProcAt res.stdout.data).getD "unknown"

/-- The `high` event for a newly bound unexpected listening port. -/
def newListenerEvent (port : Nat) (processInfo : String) : SecurityEvent where
  event_type := "network_anomaly"
  severity := "high"
  message := "New unexpected listening port detected: " ++ toString port
  details :=
    [("port", .nat port), ("process", .str processInfo),
     ("anomaly_type", .str "new_listener")]

/-- `_check_listening_ports`: diff current listeners against the baseline,
alert on unexpected additions, and advance the baseline unconditionally.
(`for port in new_ports` iterates a Python set in unspecified order; modelled
as the sorted order.) -/
def checkListeningPorts (expected : Finset Nat) (ssListen : CmdOutcome)
    (ssProc : Nat → CmdOutcome) (known : Finset Nat) :
    List SecurityEvent × Finset Nat :=
  let current := getListeningPorts ssListen
  let newPorts := current \ known
  let events := (newPorts.sort (· ≤ ·)).filterMap (fun port =>
    if port ∈ expected then none
    else some (newListenerEvent port (getPortProcess (ssProc port))))
  (events, current)

/-- `(\d+\.\d+\.\d+\.\d+):(\d+)` at the current position. -/
def matchIpPortAt (cs : List Char) : Option (String × Nat) := do
  let (ip, cs) ← matchIpAt cs
  let cs ← stripLit [':'] cs
  let (d, _) ← munch1 isDigitCh cs
  some (String.mk ip, digitsToNat d)

/-- `re.search(r'(\d+\.\d+\.\d+\.\d+):(\d+)', line)`, both groups. -/
def searchIpPort (line : String) : Option (String × Nat) := reSearch matchIpPortAt line.data

/-- The fixed suspicious destination port list of `_check_outbound_connections`. -/
def suspiciousPorts : List Nat := [6667, 6668, 6669, 4444, 31337, 12345]

/-- The `high` event for a suspicious outbound connection. -/
def suspiciousConnEvent (destIp : String) (destPort : Nat) : SecurityEvent where
  event_type := "network_anomaly"
  severity := "high"
  message := "Suspicious outbound connection to " ++ destIp ++ ":" ++ toString destPort
  details :=
    [("destination_ip", .str destIp), ("destination_port", .nat destPort),
     ("anomaly_type", .str "suspicious_connection")]

/-- Body of `_check_outbound_connections` (inside the `try`): per line, every
suspicious port whose `:port` text occurs emits one event (no dedup), using
the first `ip:port` text of the line as the destination. -/
def checkOutboundConnectionsBody (r : CmdOutcome) : Except PyExn (List SecurityEvent) := do
  let res ← r
  return (splitLines res.stdout).flatMap (fun line =>
    suspiciousPorts.filterMap (fun susPort =>
      if strContains line (":" ++ toString susPort) then
        (searchIpPort line).map (fun dm => suspiciousConnEvent dm.1 dm.2)
      else none))

/-- `_check_outbound_connections` with its `try/except`. -/
def checkOutboundConnections (r : CmdOutcome) : List SecurityEvent :=
  match checkOutboundConnectionsBody r with
  | .ok evs => evs
  | .error _ => []

/-- `SRC=(\d+\.\d+\.\d+\.\d+)` at the current position. -/
def matchSrcIpAt (cs : List Char) : Option String := do
  let cs ← stripLit "SRC=".data cs
  let (ip, _) ← matchIpAt cs
  some (String.mk ip)

/-- `re.search(r'SRC=(\d+\.\d+\.\d+\.\d+)', line)`, group 1. -/
def searchSrcIp (line : String) : Option String := reSearch matchSrcIpAt line.data

/-- `connection_attempts[ip] = connection_attempts.get(ip, 0) + 1` on an
insertion-ordered dict. -/
def countBump (m : List (String × Nat)) (k : String) : List (String × Nat) :=
  if (m.lookup k).isSome then
    m.map (fun kv => if kv.1 = k then (kv.1, kv.2 + 1) else kv)
  else m ++ [(k, 1)]

/-- The `high` "possible port scan" event. -/
def portScanEvent (srcIp : String) (count : Nat) : SecurityEvent where
  event_type := "network_anomaly"
  severity := "high"
  message := "Possible port scan detected from " ++ srcIp
  details :=
    [("source_ip", .str srcIp), ("connection_attempts", .nat count),
     ("anomaly_type", .str "port_scan")]

/-- Body of `_check_port_scans` (inside the `try`): count SYN/NEW lines per
source address, alert when a count strictly exceeds 50. -/
def checkPortScansBody (r : CmdOutcome) : Except PyExn (List SecurityEvent) := do
  let res ← r
  let attempts := (splitLines res.stdout).foldl
    (fun (m : List (String × Nat)) line =>
      if strContains line "SYN" || strContains line "NEW" then
        match searchSrcIp line with
        | some srcIp => countBump m srcIp
        | none => m
      else m)
    []
  return attempts.filterMap (fun kv =>
    if kv.2 > 50 then some (portScanEvent kv.1 kv.2) else none)

/-- `_check_port_scans` with its `try/except`. -/
def checkPortScans (r : CmdOutcome) : List SecurityEvent :=
  match checkPortScansBody r with
  | .ok evs => evs
  | .error _ => []

/-- Environment of one `NetworkAnomalyDetector.detect` call. -/
structure NetEnv where
  ssListen : CmdOutcome
  ssProc : Nat → CmdOutcome
  ssOutbound : CmdOutcome
  kernelJournal : CmdOutcome

/-- `NetworkAnomalyDetector.detect`; the state is `known_listeners`, touched
only by the listener check, which runs only when `alert_on_new_listeners`. -/
def netDetect (enabled alertOnNewListeners : Bool) (expected : Finset Nat)
    (env : NetEnv) (known : Finset Nat) :
    Except PyExn (List SecurityEvent × Finset Nat) :=
  if !enabled then .ok ([], known)
  else
    let (listenerEvents, known') :=
      if alertOnNewListeners then checkListeningPorts expected env.ssListen env.ssProc known
      else ([], known)
    .ok (listenerEvents ++ checkOutboundConnections env.ssOutbound
          ++ checkPortScans env.kernelJournal, known')

/-! ## FileChangeDetector (file_changes.py) -/

/-- The fixed list of monitored critical files. -/
def CRITICAL_FILES : List String :=
  ["/etc/passwd", "/etc/shadow", "/etc/group", "/etc/gshadow", "/etc/sudoers",
   "/etc/ssh/sshd_config", "/root/.ssh/authorized_keys", "/etc/crontab"]

/-- The fixed list of monitored critical directories. -/
def CRITICAL_DIRS : List String :=
  ["/etc/sudoers.d", "/etc/cron.d", "/etc/cron.daily", "/etc/cron.hourly",
   "/etc/cron.weekly", "/etc/cron.monthly"]

/-- The persisted `file_hashes` dict: path to hex content hash, in insertion
order. -/
abbrev HashMapL := List (String × String)

/-- Python `d.get(k)` on the hash dict (keys are unique). -/
def dictFind : HashMapL → String → Option String
  | [], _ => none
  | kv :: rest, k => if kv.1 = k then some kv.2 else dictFind rest k

/-- Python dict assignment `d[k] = v`: replace the value at the (unique) key
in place, preserving its position, else append at the end. -/
def dictInsert : HashMapL → String → String → HashMapL
  | [], k, v => [(k, v)]
  | kv :: rest, k, v => if kv.1 = k then (kv.1, v) :: rest else kv :: dictInsert rest k v

/-- One entry yielded by `dir_obj.glob("*")`. -/
structure GlobEntry where
  path : String
  isFile : Bool
deriving DecidableEq, Repr

/-- Environment of one `FileChangeDetector` hash-check: `Path.exists`
answers, `_get_file_hash` answers (that helper catches internally and yields
"" on any read failure), directory existence, `glob` outcomes (the
surrounding per-directory `try` makes a raised iteration atomic here), and
the `ausearch` outcome for the auditd sub-check. -/
structure FsEnv where
  exist : String → Bool
  hash : String → String
  dirExists : String → Bool
  glob : String → Except PyExn (List GlobEntry)
  ausearch : CmdOutcome

/-- The `critical` event for a modified critical file. -/
def fileChangeCriticalEvent (path prevHash curHash : String) : SecurityEvent where
  event_type := "file_change"
  severity := "critical"
  message := "Critical file modified: " ++ path
  details :=
    [("file_path", .str path), ("previous_hash", .str prevHash),
     ("current_hash", .str curHash)]

/-- The `high` event for a new file in a critical directory. -/
def newDirFileEvent (path dir fileHash : String) : SecurityEvent where
  event_type := "file_change"
  severity := "high"
  message := "New file created in critical directory: " ++ path
  details :=
    [("file_path", .str path), ("directory", .str dir), ("file_hash", .str fileHash)]

/-- The `high` event for a modified file in a critical directory. -/
def dirFileModifiedEvent (path dir prevHash curHash : String) : SecurityEvent where
  event_type := "file_change"
  severity := "high"
  message := "File modified in critical directory: " ++ path
  details :=
    [("file_path", .str path), ("directory", .str dir),
     ("previous_hash", .str prevHash), ("current_hash", .str curHash)]

/-- The loop body of the critical-files pass of `_check_file_hashes`:
baseline silently on first sight, emit + advance on a changed hash. -/
def stepCriticalFile (env : FsEnv) (acc : List SecurityEvent × HashMapL) (path : String) :
    List SecurityEvent × HashMapL :=
  if !env.exist path then acc
  else
    let currentHash := env.hash path
    if currentHash = "" then acc
    else
      match dictFind acc.2 path with
      | none => (acc.1, dictInsert acc.2 path currentHash)
      | some stored =>
        if stored ≠ currentHash then
          (acc.1 ++ [fileChangeCriticalEvent path stored currentHash],
           dictInsert acc.2 path currentHash)
        else acc

/-- The per-glob-entry body of the critical-directories pass (no empty-hash
guard here: the source stores even a failed "" hash for directory files). -/
def stepDirFile (env : FsEnv) (dirPath : String) (acc : List SecurityEvent × HashMapL)
    (entry : GlobEntry) : List SecurityEvent × HashMapL :=
  if !entry.isFile then acc
  else
    let currentHash := env.hash entry.path
    match dictFind acc.2 entry.path with
    | none =>
      (acc.1 ++ [newDirFileEvent entry.path dirPath currentHash],
       dictInsert acc.2 entry.path currentHash)
    | some stored =>
      if stored ≠ currentHash then
        (acc.1 ++ [dirFileModifiedEvent entry.path dirPath stored currentHash],
         dictInsert acc.2 entry.path currentHash)
      else acc

/-- The per-directory body of `_check_file_hashes`, with its `try/except`
keeping earlier events when a directory iteration raises. -/
def stepCriticalDir (env : FsEnv) (acc : List SecurityEvent × HashMapL) (dirPath : String) :
    List SecurityEvent × HashMapL :=
  if !env.dirExists dirPath then acc
  else
    match env.glob dirPath with
    | .error _ => acc
    | .ok entries => entries.foldl (stepDirFile env dirPath) acc

/-- `_check_file_hashes`: the critical-files pass, then the directories pass;
`_save_hashes` only persists and never affects the returned value. -/
def checkFileHashes (env : FsEnv) (st : HashMapL) : List SecurityEvent × HashMapL :=
  CRITICAL_DIRS.foldl (stepCriticalDir env) (CRITICAL_FILES.foldl (stepCriticalFile env) ([], st))

/-- `name="([^"]+)"` at the current position (auditd path extraction). -/
def matchAuditNameAt (cs : List Char) : Option String := do
  let cs ← stripLit "name=\"".data cs
  let (w, cs) ← munch1 (fun c => c ≠ '"') cs
  let _ ← stripLit ['"'] cs
  some (String.mk w)

/-- `re.search(r'name="([^"]+)"', line)`, group 1. -/
def searchAuditName (line : String) : Option String := reSearch matchAuditNameAt line.data

/-- The `high` auditd file-access event. -/
def auditdAccessEvent (path : String) : SecurityEvent where
  event_type := "file_change"
  severity := "high"
  message := "Auditd detected file access: " ++ path
  details := [("file_path", .str path), ("source", .str "auditd")]

/-- Body of `_check_auditd_file_changes` (inside the `try`). -/
def checkAuditdFileChangesBody (r : CmdOutcome) : Except PyExn (List SecurityEvent) := do
  let res ← r
  if res.returncode ≠ 0 then return []
  return (splitLines res.stdout).filterMap (fun line =>
    if strContains line "type=PATH" then (searchAuditName line).map auditdAccessEvent
    else none)

/-- `_check_auditd_file_changes` with its `try/except` (a missing `ausearch`
binary — `FileNotFoundError` — and any other exception both degrade to no
events). -/
def checkAuditdFileChanges (r : CmdOutcome) : List SecurityEvent :=
  match checkAuditdFileChangesBody r with
  | .ok evs => evs
  | .error _ => []

/-- `FileChangeDetector.detect`; the state is the `file_hashes` map. -/
def fileDetect (enabled useAuditd : Bool) (env : FsEnv) (st : HashMapL) :
    Except PyExn (List SecurityEvent × HashMapL) :=
  if !enabled then .ok ([], st)
  else
    let (hashEvents, st') := checkFileHashes env st
    let auditdEvents := if useAuditd then checkAuditdFileChanges env.ausearch else []
    .ok (hashEvents ++ auditdEvents, st')

/-- `_load_hashes` after the existence check: a parse failure of the stored
JSON degrades to an empty map (malformed durable state never propagates). -/
def loadHashes (stored : Except PyExn HashMapL) : HashMapL :=
  match stored with
  | .ok m => m
  | .error _ => []

/-! ## SuspiciousCommandDetector (suspicious_commands.py)

The pattern table is pure data `(regex, threat_type, severity)`; the scan
loops are embedded with the `re.search(pattern, line, re.IGNORECASE)` test
abstracted as a `matcher` argument, which the no-throw claim quantifies over
(Python's `re.search` on these constant valid patterns cannot raise). -/

/-- The ordered `SUSPICIOUS_PATTERNS` table. -/
def SUSPICIOUS_PATTERNS : List (String × String × String) :=
  [(r"bash\s+-i\s+>&\s+/dev/tcp/", "reverse_shell", "critical"),
   (r"nc\s+-[el]+.*\s+/bin/(ba)?sh", "reverse_shell", "critical"),
   (r"python.*socket.*subprocess", "reverse_shell", "critical"),
   (r"perl.*socket.*exec", "reverse_shell", "critical"),
   (r"/dev/tcp/.*bash", "reverse_shell", "critical"),
   (r"nmap\s+", "network_scan", "high"),
   (r"masscan\s+", "network_scan", "high"),
   (r"netstat.*-[tanp]", "network_recon", "medium"),
   (r"ss\s+-[tanp]", "network_recon", "medium"),
   (r"curl.*https?://.*\|\s*bash", "remote_execution", "critical"),
   (r"wget.*https?://.*\|\s*bash", "remote_execution", "critical"),
   (r"curl.*-X\s+POST.*--data", "data_exfiltration", "high"),
   (r"scp\s+.*@.*:", "data_exfiltration", "high"),
   (r"rsync.*@.*:", "data_exfiltration", "high"),
   (r"curl.*-T\s+", "data_exfiltration", "high"),
   (r"wget.*--post-file", "data_exfiltration", "high"),
   (r"nc\s+.*<\s*", "data_exfiltration", "high"),
   (r"cat\s+.*\|\s*nc\s+", "data_exfiltration", "high"),
   (r"tar\s+.*\|\s*ssh", "data_exfiltration", "high"),
   (r"python.*requests\.post", "data_exfiltration", "medium"),
   (r"tar\s+.*\|\s*base64", "data_exfiltration", "high"),
   (r"gzip.*\|\s*base64", "data_exfiltration", "medium"),
   (r"base64.*>\s*/tmp/", "data_exfiltration", "medium"),
   (r"cat\s+/etc/shadow", "credential_access", "critical"),
   (r"cat\s+/etc/passwd", "credential_access", "high"),
   (r"mimikatz", "credential_access", "critical"),
   (r"grep.*password.*\.bash_history", "credential_hunting", "high"),
   (r"grep.*-r.*password", "credential_hunting", "medium"),
   (r"find.*\.ssh/id_rsa", "credential_hunting", "high"),
   (r"cat.*\.aws/credentials", "credential_hunting", "high"),
   (r"env\s*\|\s*grep.*PASSWORD", "credential_hunting", "medium"),
   (r"printenv.*PASS", "credential_hunting", "medium"),
   (r"find.*-perm.*4000", "permission_recon", "high"),
   (r"find.*-perm.*2000", "permission_recon", "high"),
   (r"find.*-perm.*777", "permission_recon", "medium"),
   (r"find.*-user\s+root.*-perm", "privilege_escalation_recon", "high"),
   (r"getcap\s+-r\s+/", "permission_recon", "medium"),
   (r"find.*-writable", "permission_recon", "medium"),
   (r"find\s+/home/.*-readable", "unauthorized_access", "medium"),
   (r"cat\s+/home/[^/]+/\.(bash_history|ssh)", "unauthorized_access", "high"),
   (r"ls\s+-la\s+/home/[^/]+", "unauthorized_access", "medium"),
   (r"xmrig|ccminer|minerd", "cryptomining", "high"),
   (r"base64\s+-d.*\|\s*bash", "obfuscated_execution", "high"),
   (r"echo.*\|\s*base64\s+-d", "obfuscated_execution", "medium"),
   (r"uname\s+-a.*\|\s*(curl|wget)", "system_recon", "medium"),
   (r"ifconfig.*\|\s*(curl|wget)", "system_recon", "medium"),
   (r"ps\s+aux.*\|\s*(curl|wget)", "system_recon", "medium"),
   (r"crontab.*-e|echo.*>>\s*/var/spool/cron", "persistence", "high"),
   (r"echo.*>>\s*/etc/rc\.local", "persistence", "high"),
   (r"systemctl.*daemon-reload", "persistence", "medium"),
   (r"rm\s+.*\.log", "log_tampering", "high"),
   (r"echo\s+>\s+/var/log", "log_tampering", "high"),
   (r"truncate.*\.log", "log_tampering", "high"),
   (r"shred.*\.log", "log_tampering", "high")]

/-- `cmd=(.+)` at the current position. -/
def matchCmdEqAt (cs : List Char) : Option String := do
  let cs ← stripLit "cmd=".data cs
  let (w, _) ← munch1 (fun _ => true) cs
  some (String.mk w)

/-- `re.search(r'cmd=(.+)', line)`, group 1. -/
def searchCmdEq (line : String) : Option String := reSearch matchCmdEqAt line.data

/-- The event emitted by the auditd scan of suspicious commands. -/
def suspiciousAuditdEvent (threatType command pattern severity : String) : SecurityEvent where
  event_type := "suspicious_command"
  severity := severity
  message := "Suspicious command detected: " ++ threatType
  details :=
    [("threat_type", .str threatType), ("command", .str command),
     ("pattern_matched", .str pattern)]

/-- Python `line[:500]`. -/
def strTake (s : String) (n : Nat) : String := String.mk (s.data.take n)

/-- The event emitted by the journal scan of suspicious commands. -/
def suspiciousJournalEvent (threatType logEntry pattern severity : String) : SecurityEvent where
  event_type := "suspicious_command"
  severity := severity
  message := "Suspicious command pattern detected: " ++ threatType
  details :=
    [("threat_type", .str threatType), ("log_entry", .str (strTake logEntry 500)),
     ("pattern_matched", .str pattern)]

/-- Body of `_check_auditd_logs` (inside the `try`): each line is tested
against every pattern independently; each hit emits one event. -/
def checkAuditdLogsBody (matcher : String → String → Bool) (r : CmdOutcome) :
    Except PyExn (List SecurityEvent) := do
  let res ← r
  if res.returncode ≠ 0 then return []
  return (splitLines res.stdout).flatMap (fun line =>
    SUSPICIOUS_PATTERNS.filterMap (fun pts =>
      if matcher pts.1 line then
        some (suspiciousAuditdEvent pts.2.1 ((searchCmdEq line).getD "unknown")
          pts.1 pts.2.2)
      else none))

/-- `_check_auditd_logs` with its `try/except`. -/
def checkAuditdLogs (matcher : String → String → Bool) (r : CmdOutcome) : List SecurityEvent :=
  match checkAuditdLogsBody matcher r with
  | .ok evs => evs
  | .error _ => []

/-- Body of `_check_journalctl` (inside the `try`). -/
def checkJournalCmdsBody (matcher : String → String → Bool) (r : CmdOutcome) :
    Except PyExn (List SecurityEvent) := do
  let res ← r
  if res.returncode ≠ 0 then return []
  return (splitLines res.stdout).flatMap (fun line =>
    SUSPICIOUS_PATTERNS.filterMap (fun pts =>
      if matcher pts.1 line then some (suspiciousJournalEvent pts.2.1 line pts.1 pts.2.2)
      else none))

/-- `_check_journalctl` with its `try/except`. -/
def checkJournalCmds (matcher : String → String → Bool) (r : CmdOutcome) : List SecurityEvent :=
  match checkJournalCmdsBody matcher r with
  | .ok evs => evs
  | .error _ => []

/-- `_check_bash_history` is an intentional stub in the source. -/
def checkBashHistory : List SecurityEvent := []

/-- Environment of one `SuspiciousCommandDetector.detect` call. -/
structure SusEnv where
  ausearch : CmdOutcome
  journal : CmdOutcome

/-- `SuspiciousCommandDetector.detect`. -/
def susDetect (matcher : String → String → Bool) (enabled useAuditd : Bool) (env : SusEnv) :
    Except PyExn (List SecurityEvent) :=
  if !enabled then .ok []
  else .ok (checkBashHistory
    ++ (if useAuditd then checkAuditdLogs matcher env.ausearch else [])
    ++ checkJournalCmds matcher env.journal)

/-! ## Alerters (alerters/base.py, webhook.py, slack.py, mattermost.py,
telegram.py)

Events reach alerters as `event.to_dict()` output; that dict always carries
the six keys below, so it is modelled as a structure.  Outbound HTTP is
modelled by its observable outcome: either a raised exception (connection
error, timeout, too many redirects, ...) or the final response status.
Payload construction (JSON bodies, templates) is total Python code that
cannot raise on these inputs and does not influence the delivered/failed
outcome, which is what the claims are about. -/

/-- The event dictionary produced by `SecurityEvent.to_dict()`. -/
structure EventDict where
  timestamp : String
  event_type : String
  severity : String
  message : String
  source : String
  details : List (String × PyVal)
deriving DecidableEq, Repr

/-- Outcome of one `requests.post`/`requests.put` call. -/
inductive NetOutcome where
  | resp (status : Nat)
  | failure (msg : String)
deriving DecidableEq, Repr

/-- `requests.Response.raise_for_status()` raises exactly for
`400 <= status_code < 600`. -/
def raisesForStatus (s : Nat) : Bool := 400 ≤ s && s < 600

/-- One alerter configuration entry (the channel-relevant `webhook_config`
keys; `enabledFlag` is `config.get("enabled", True)`). -/
structure AlerterCfg where
  enabledFlag : Bool
  type? : Option String
  url? : Option String
  botToken? : Option String
  chatId? : Option String
deriving DecidableEq, Repr

/-- Python truthiness of an optional string credential (`if not self.url`). -/
def truthy : Option String → Bool
  | none => false
  | some s => s ≠ ""

/-- Enabled state of a constructed `WebhookAlerter` (base `enabled` flag, then
`if not self.url: self.enabled = False`). -/
def webhookEnabled (c : AlerterCfg) : Bool := c.enabledFlag && truthy c.url?

/-- Enabled state of a constructed `SlackAlerter` (same url requirement). -/
def slackEnabled (c : AlerterCfg) : Bool := c.enabledFlag && truthy c.url?

/-- Enabled state of a constructed `MattermostAlerter` (inherits Slack's
constructor; only the default username differs). -/
def mattermostEnabled (c : AlerterCfg) : Bool := slackEnabled c

/-- Enabled state of a constructed `TelegramAlerter`
(`if not self.bot_token or not self.chat_id`). -/
def telegramEnabled (c : AlerterCfg) : Bool :=
  c.enabledFlag && truthy c.botToken? && truthy c.chatId?

/-- `WebhookAlerter.send_alert`: returns the delivery flag and the number of
HTTP requests issued.  `method` is the constructor's upper-cased
`config.get("method", "POST")`; a method other than POST/PUT returns `False`
from inside the `try` without any request. -/
def webhookSendAlert (c : AlerterCfg) (method : String) (event : EventDict)
    (net : NetOutcome) : Bool × Nat :=
  if !webhookEnabled c then (false, 0)
  else if method = "POST" || method = "PUT" then
    match net with
    | .failure _ => (false, 1)
    | .resp s => (!raisesForStatus s, 1)
  else (false, 0)

/-- `SlackAlerter.send_alert`. -/
def slackSendAlert (c : AlerterCfg) (event : EventDict) (net : NetOutcome) : Bool × Nat :=
  if !slackEnabled c then (false, 0)
  else
    match net with
    | .failure _ => (false, 1)
    | .resp s => (!raisesForStatus s, 1)

/-- `MattermostAlerter.send_alert` is inherited from `SlackAlerter` verbatim. -/
def mattermostSendAlert (c : AlerterCfg) (event : EventDict) (net : NetOutcome) : Bool × Nat :=
  slackSendAlert c event net

/-- `TelegramAlerter.send_alert`. -/
def telegramSendAlert (c : AlerterCfg) (event : EventDict) (net : NetOutcome) : Bool × Nat :=
  if !telegramEnabled c then (false, 0)
  else
    match net with
    | .failure _ => (false, 1)
    | .resp s => (!raisesForStatus s, 1)

/-! ### Slack attachment fields (`SlackAlerter._format_slack_message`) -/

/-- One Slack attachment field. -/
structure SlackField where
  title : String
  value : String
  short : Bool
deriving DecidableEq, Repr

/-- Python `str.title()`: word = maximal run of letters; first letter of each
word upper-cased, the rest lower-cased (ASCII, which covers detail keys). -/
def titleAux : Bool → List Char → List Char
  | _, [] => []
  | prevAlpha, c :: cs =>
    (if c.isAlpha then (if prevAlpha then c.toLower else c.toUpper) else c)
      :: titleAux c.isAlpha cs

/-- Python `s.title()`. -/
def strTitle (s : String) : String := String.mk (titleAux false s.data)

/-- `key.replace("_", " ").title()`. -/
def humanizeKey (k : String) : String := strTitle (k.replace "_" " ")

/-- The four leading attachment fields. -/
def slackBaseFields (e : EventDict) : List SlackField :=
  [⟨"Event Type", e.event_type, true⟩, ⟨"Severity", strUpper e.severity, true⟩,
   ⟨"Source", e.source, true⟩, ⟨"Timestamp", e.timestamp, true⟩]

/-- The `fields` list built by `_format_slack_message`: the four header
fields, then each detail entry appended while `len(fields) < 10`. -/
def slackFields (e : EventDict) : List SlackField :=
  e.details.foldl
    (fun fields kv =>
      if fields.length < 10 then fields ++ [⟨humanizeKey kv.1, pyStr kv.2, true⟩]
      else fields)
    (slackBaseFields e)

/-! ## Engine alerter initialization (sams.py `SAMS._initialize_alerters`) -/

/-- The four registered alerter classes. -/
inductive AlerterKind where
  | webhook
  | slack
  | mattermost
  | telegram
deriving DecidableEq, Repr

/-- `alerter_types.get(webhook_type, WebhookAlerter)`: unrecognized type
strings silently fall back to the generic webhook class. -/
def alerterKindFor (t : String) : AlerterKind :=
  if t = "webhook" then .webhook
  else if t = "slack" then .slack
  else if t = "mattermost" then .mattermost
  else if t = "telegram" then .telegram
  else .webhook

/-- Enabled state of the alerter `alerter_class(webhook_config)` constructs. -/
def constructedEnabled (k : AlerterKind) (c : AlerterCfg) : Bool :=
  match k with
  | .webhook => webhookEnabled c
  | .slack => slackEnabled c
  | .mattermost => mattermostEnabled c
  | .telegram => telegramEnabled c

/-- The per-entry body of `_initialize_alerters`: skip entries whose
`enabled` flag is falsy, construct the selected class (constructors are
total), keep the instance only when it reports enabled. -/
def processAlerterEntry (c : AlerterCfg) : Option (AlerterKind × AlerterCfg) :=
  if !c.enabledFlag then none
  else
    let k := alerterKindFor (c.type?.getD "webhook")
    if constructedEnabled k c then some (k, c) else none

/-- `_initialize_alerters` over the `alerting.webhooks` list. -/
def initializeAlerters (cs : List AlerterCfg) : List (AlerterKind × AlerterCfg) :=
  cs.filterMap processAlerterEntry

/-! ## External invocation registry (for the timeout discipline)

One record per `subprocess.run` call site in src/sams, with the exact
`timeout=` argument present there, plus the timeout passed on every
`requests` call by the alerters. -/

/-- A `subprocess.run` invocation: argv and the `timeout=` argument. -/
structure SubprocessCall where
  argv : List String
  timeoutSecs : Option Nat
deriving DecidableEq, Repr

/-- auth_failures.py `_check_ssh_failures`: no `timeout=`. -/
def sshJournalctlCall (timeframe : Nat) : SubprocessCall :=
  ⟨["journalctl", "-u", "ssh", "--since", toString timeframe ++ " seconds ago",
    "--no-pager"], none⟩

/-- auth_failures.py `_check_sudo_failures` and privilege_escalation.py
`_check_unauthorized_sudo`: no `timeout=`. -/
def sudoJournalctlCall (timeframe : Nat) : SubprocessCall :=
  ⟨["journalctl", "-t", "sudo", "--since", toString timeframe ++ " seconds ago",
    "--no-pager"], none⟩

/-- privilege_escalation.py `_check_su_usage` and suspicious_commands.py
`_check_journalctl`: no `timeout=`. -/
def fullJournalctlCall (timeframe : Nat) : SubprocessCall :=
  ⟨["journalctl", "--since", toString timeframe ++ " seconds ago", "--no-pager"], none⟩

/-- network_anomalies.py `_check_port_scans`: no `timeout=`. -/
def kernelJournalctlCall : SubprocessCall :=
  ⟨["journalctl", "-k", "--since", "5 minutes ago", "--no-pager"], none⟩

/-- network_anomalies.py `_get_listening_ports`: no `timeout=`. -/
def ssListenCall : SubprocessCall := ⟨["ss", "-tlnp"], none⟩

/-- network_anomalies.py `_get_port_process`: no `timeout=`. -/
def ssPortProcessCall (port : Nat) : SubprocessCall :=
  ⟨["ss", "-tlnp", "sport = :" ++ toString port], none⟩

/-- network_anomalies.py `_check_outbound_connections`: no `timeout=`. -/
def ssOutboundCall : SubprocessCall := ⟨["ss", "-tnp", "state", "established"], none⟩

/-- file_changes.py `_check_auditd_file_changes`: no `timeout=`. -/
def ausearchFileCall (timeframe : Nat) : SubprocessCall :=
  ⟨["ausearch", "-ts", "recent -" ++ toString timeframe, "-k",
    "identity,sudoers,sshd_config", "--format", "text"], none⟩

/-- suspicious_commands.py `_check_auditd_logs`: no `timeout=`. -/
def ausearchExecveCall (timeframe : Nat) : SubprocessCall :=
  ⟨["ausearch", "-ts", "recent -" ++ toString timeframe, "-m", "execve",
    "--format", "text"], none⟩

/-- privilege_escalation.py `_get_suid_files`, first run: `timeout=30`. -/
def findSuidCall : SubprocessCall :=
  ⟨["find", "/", "-perm", "-4000", "-type", "f", "-print"], some 30⟩

/-- privilege_escalation.py `_get_suid_files`, second run: `timeout=30`. -/
def findSgidCall : SubprocessCall :=
  ⟨["find", "/", "-perm", "-2000", "-type", "f", "-print"], some 30⟩

/-- Every detector `subprocess.run` call site of src/sams (with default
timeframe 300 where configurable). -/
def detectorSubprocessCalls : List SubprocessCall :=
  [sshJournalctlCall 300, sudoJournalctlCall 300, fullJournalctlCall 300,
   kernelJournalctlCall, ssListenCall, ssPortProcessCall 4444, ssOutboundCall,
   ausearchFileCall 300, ausearchExecveCall 300, findSuidCall, findSgidCall]

/-- Every alerter `requests.post`/`requests.put` call passes
`timeout=self.timeout` where `self.timeout = config.get("timeout", 10)`. -/
def alerterHttpTimeout (cfgTimeout : Option Nat) : Nat := cfgTimeout.getD 10

/-! ## Concrete fixtures used by witnesses and counterexamples -/

/-- A failed `su` switch line as recorded by PAM in the system journal. -/
def failedSuLine : String :=
  "Oct 12 03:14:07 host su: pam_unix(su:auth): authentication failure; logname= uid=1000 euid=0 tty=pts/0 ruser=alice rhost= user=root"

/-- A successful `su` switch line as recorded by PAM in the system journal. -/
def openedSuLine : String :=
  "Oct 12 03:14:09 host su: pam_unix(su:session): session opened for user root by alice(uid=1000)"

/-- A Slack-typed alerter entry whose webhook answers with a redirect. -/
def slackCfgFx : AlerterCfg :=
  { enabledFlag := true, type? := some "slack",
    url? := some "https://hooks.example/T000/B000", botToken? := none, chatId? := none }

/-- A sample delivered event dictionary. -/
def sampleEventFx : EventDict :=
  { timestamp := "2026-10-12T00:00:00Z", event_type := "test", severity := "low",
    message := "This is a test alert from OMEN SAMS", source := "localhost", details := [] }

/-! ## Theorems -/

/-- C10: with `alert_on_new_listeners` false, `detect()` leaves the
`known_listeners` baseline untouched while the outbound-connection and
port-scan checks still run and contribute all the events. -/
theorem netDetect_skips_listener_baseline (expected : Finset Nat) (env : NetEnv)
    (known : Finset Nat) :
    netDetect true false expected env known =
      .ok (checkOutboundConnections env.ssOutbound ++ checkPortScans env.kernelJournal,
           known) := rfl

/-- C9: an enabled alerter entry whose `type` is none of
webhook/slack/mattermost/telegram silently falls back to the generic
`WebhookAlerter`; with a valid url it joins the active set as a webhook
channel. -/
theorem unknown_alerter_type_falls_back (c : AlerterCfg) (t : String)
    (htype : c.type? = some t) (hw : t ≠ "webhook") (hs : t ≠ "slack")
    (hm : t ≠ "mattermost") (hg : t ≠ "telegram")
    (hen : c.enabledFlag = true) (hurl : truthy c.url? = true) :
    processAlerterEntry c = some (.webhook, c) ∧
      initializeAlerters [c] = [(.webhook, c)] := by
  have hk : alerterKindFor t = .webhook := by
    simp [alerterKindFor, hw, hs, hm, hg]
  have hp : processAlerterEntry c = some (.webhook, c) := by
    simp [processAlerterEntry, hen, htype, hk, constructedEnabled, webhookEnabled, hurl]
  exact ⟨hp, by simp [initializeAlerters, hp]⟩

/-- Witness for the fallback: a typo'd `type` with a valid url becomes an
enabled generic webhook entry. -/
theorem unknown_alerter_type_falls_back_witness :
    processAlerterEntry
        { enabledFlag := true, type? := some "webook",
          url? := some "https://alerts.example/hook", botToken? := none, chatId? := none } =
      some (.webhook,
        { enabledFlag := true, type? := some "webook",
          url? := some "https://alerts.example/hook", botToken? := none, chatId? := none }) :=
  (unknown_alerter_type_falls_back _ "webook" rfl (by decide) (by decide) (by decide)
    (by decide) rfl (by decide)).1

/-- C6: the timeout discipline as implemented — the two SUID/SGID `find`
scans pass `timeout=30` and every alerter HTTP call passes a bounded
timeout (default 10), but the journalctl/ss/ausearch invocations pass no
timeout at all, so the universal bounded-timeout claim fails at, e.g., the
SSH journalctl call. -/
theorem subprocess_timeout_registry :
    (sshJournalctlCall 300).timeoutSecs = none ∧
    (sudoJournalctlCall 300).timeoutSecs = none ∧
    (fullJournalctlCall 300).timeoutSecs = none ∧
    kernelJournalctlCall.timeoutSecs = none ∧
    ssListenCall.timeoutSecs = none ∧
    (ssPortProcessCall 4444).timeoutSecs = none ∧
    ssOutboundCall.timeoutSecs = none ∧
    (ausearchFileCall 300).timeoutSecs = none ∧
    (ausearchExecveCall 300).timeoutSecs = none ∧
    findSuidCall.timeoutSecs = some 30 ∧
    findSgidCall.timeoutSecs = some 30 ∧
    ¬ (∀ call ∈ detectorSubprocessCalls, call.timeoutSecs.isSome = true) ∧
    (∀ cfgTimeout, alerterHttpTimeout cfgTimeout = cfgTimeout.getD 10) := by
  refine ⟨rfl, rfl, rfl, rfl, rfl, rfl, rfl, rfl, rfl, rfl, rfl, ?_, fun _ => rfl⟩
  intro hall
  have h := hall (sshJournalctlCall 300) (by simp [detectorSubprocessCalls])
  simp [sshJournalctlCall] at h

/-- C7: the `su` scan's line filter admits both successful and failed switch
lines, but an event is only emitted for "session opened" lines carrying an
extractable `by <user>`; a failed switch (authentication-failure line)
emits nothing, while a successful one emits the medium event. -/
theorem su_failed_switch_emits_nothing :
    strContains failedSuLine "su:" = true ∧
    strContains failedSuLine "authentication failure" = true ∧
    strContains failedSuLine "session opened" = false ∧
    checkSuUsage (.ok ⟨0, failedSuLine⟩) = [] ∧
    checkSuUsage (.ok ⟨0, openedSuLine⟩) = [suUsageEvent "alice" "user"] := by
  decide

/-- C8: the Slack attachment field list is exactly the four header fields
(event type, upper-cased severity, source, timestamp) followed by the first
6 detail entries in order, each key humanized by replacing underscores with
spaces and title-casing; entries beyond the 6th are dropped. -/
theorem slackFields_spec (e : EventDict) :
    slackFields e = slackBaseFields e
      ++ (e.details.take 6).map (fun kv => ⟨humanizeKey kv.1, pyStr kv.2, true⟩) := by
  have aux : ∀ (l : List (String × PyVal)) (fields : List SlackField),
      fields.length ≤ 10 →
      l.foldl (fun fs kv =>
          if fs.length < 10 then fs ++ [⟨humanizeKey kv.1, pyStr kv.2, true⟩] else fs) fields
        = fields ++ (l.take (10 - fields.length)).map
            (fun kv => ⟨humanizeKey kv.1, pyStr kv.2, true⟩) := by
    intro l
    induction l with
    | nil => intro fields _; simp
    | cons kv rest ih =>
      intro fields hle
      by_cases hlt : fields.length < 10
      · rw [List.foldl_cons, if_pos hlt, ih _ (by simp; omega)]
        have hsub : 10 - fields.length = (10 - (fields.length + 1)) + 1 := by omega
        rw [hsub]
        simp [List.append_assoc]
      · have h10 : fields.length = 10 := by omega
        rw [List.foldl_cons, if_neg hlt, ih _ hle]
        simp [h10]
  have hlen : (slackBaseFields e).length = 4 := by simp [slackBaseFields]
  rw [slackFields, aux e.details (slackBaseFields e) (by rw [hlen]; omega), hlen]

/-- C5 counterexample: an enabled Slack alerter receiving a final 301
response — a non-2xx status — returns `True`, because
`raise_for_status` only raises for 4xx/5xx. -/
theorem slack_send_redirect_returns_true :
    slackEnabled slackCfgFx = true ∧
    slackSendAlert slackCfgFx sampleEventFx (.resp 301) = (true, 1) ∧
    ¬ (200 ≤ 301 ∧ 301 ≤ 299) := by
  decide

/-- C5 (amended): `send()` on a disabled instance returns false with no
HTTP call; on any instance, a raised delivery exception or a 4xx/5xx final
status is caught and yields false (statuses outside 400..599, such as
redirects, yield true). -/
theorem alerter_send_error_handling (c : AlerterCfg) (method : String) (e : EventDict)
    (msg : String) (s : Nat) (n : NetOutcome) (h4 : 400 ≤ s) (h6 : s < 600) :
    (webhookEnabled c = false → webhookSendAlert c method e n = (false, 0)) ∧
    (slackEnabled c = false → slackSendAlert c e n = (false, 0)) ∧
    (mattermostEnabled c = false → mattermostSendAlert c e n = (false, 0)) ∧
    (telegramEnabled c = false → telegramSendAlert c e n = (false, 0)) ∧
    (webhookSendAlert c method e (.failure msg)).1 = false ∧
    (slackSendAlert c e (.failure msg)).1 = false ∧
    (mattermostSendAlert c e (.failure msg)).1 = false ∧
    (telegramSendAlert c e (.failure msg)).1 = false ∧
    (webhookSendAlert c method e (.resp s)).1 = false ∧
    (slackSendAlert c e (.resp s)).1 = false ∧
    (mattermostSendAlert c e (.resp s)).1 = false ∧
    (telegramSendAlert c e (.resp s)).1 = false := by
  have hraise : raisesForStatus s = true := by
    simp [raisesForStatus]; omega
  refine ⟨fun h => by simp [webhookSendAlert, h],
          fun h => by simp [slackSendAlert, h],
          fun h => by
            have h' : slackEnabled c = false := h
            simp [mattermostSendAlert, slackSendAlert, h'],
          fun h => by simp [telegramSendAlert, h], ?_, ?_, ?_, ?_, ?_, ?_, ?_, ?_⟩
  · by_cases h : webhookEnabled c <;>
      by_cases hm : method = "POST" ∨ method = "PUT" <;>
        simp [webhookSendAlert, h, hm]
  · by_cases h : slackEnabled c <;> simp [slackSendAlert, h]
  · by_cases h : slackEnabled c <;> simp [mattermostSendAlert, slackSendAlert, h]
  · by_cases h : telegramEnabled c <;> simp [telegramSendAlert, h]
  · by_cases h : webhookEnabled c <;>
      by_cases hm : method = "POST" ∨ method = "PUT" <;>
        simp [webhookSendAlert, h, hm, hraise]
  · by_cases h : slackEnabled c <;> simp [slackSendAlert, h, hraise]
  · by_cases h : slackEnabled c <;> simp [mattermostSendAlert, slackSendAlert, h, hraise]
  · by_cases h : telegramEnabled c <;> simp [telegramSendAlert, h, hraise]

/-- Witness: a url-less webhook entry is disabled and `send()` makes no
call; an enabled Slack alerter returns false on a 404. -/
theorem alerter_send_error_handling_witness :
    webhookSendAlert
        { enabledFlag := true, type? := some "webhook", url? := none,
          botToken? := none, chatId? := none } "POST" sampleEventFx (.resp 200) = (false, 0) ∧
    (slackSendAlert slackCfgFx sampleEventFx (.resp 404)).1 = false := by
  have h := alerter_send_error_handling
    { enabledFlag := true, type? := some "webhook", url? := none,
      botToken? := none, chatId? := none } "POST" sampleEventFx "connection refused"
    404 (.resp 200) (by decide) (by decide)
  have h2 := alerter_send_error_handling slackCfgFx "POST" sampleEventFx
    "connection refused" 404 (.resp 200) (by decide) (by decide)
  exact ⟨h.1 (by decide), h2.2.2.2.2.2.2.2.2.2.1⟩

/-- Unfolding of `_check_ssh_failures` on a clean journalctl run. -/
theorem checkSshFailures_ok (t : Nat) (res : CmdResult) (h : res.returncode = 0) :
    checkSshFailures t (.ok res) =
      (groupSshFailures (splitLines res.stdout)).filterMap (fun kv =>
        if kv.2.length ≥ t then some (sshFailureEvent kv.1.1 kv.1.2 kv.2.length t)
        else none) := by
  simp [checkSshFailures, checkSshFailuresBody, h, bind, Except.bind, pure, Except.pure]

/-- C3: over a journal window whose failure lines form exactly one
(source-IP, username) group, the SSH check emits nothing when the group's
count is `threshold - 1` and exactly one `auth_failure` event for the pair
when the count equals `threshold` (the guard is `count >= threshold`). -/
theorem authFailure_threshold_boundary (t : Nat) (res : CmdResult) (ip user : String)
    (ls : List String) (hrc : res.returncode = 0)
    (hg : groupSshFailures (splitLines res.stdout) = [((ip, user), ls)]) :
    (ls.length + 1 = t → checkSshFailures t (.ok res) = []) ∧
    (ls.length = t → checkSshFailures t (.ok res) = [sshFailureEvent ip user t t]) := by
  rw [checkSshFailures_ok t res hrc, hg]
  constructor
  · intro ht
    have : ¬ (ls.length ≥ t) := by omega
    simp [List.filterMap, this]
  · intro ht
    have : ls.length ≥ t := by omega
    simp [List.filterMap, this, ht]

/-- The SSH failure line used by the threshold witness. -/
def sshFailLineFx : String := "Failed password for root from 10.0.0.5 port 22 ssh2"

/-- The two-line journal window used by the threshold witness. -/
def sshWindowFx : CmdResult := { returncode := 0, stdout := sshFailLineFx ++ "\n" ++ sshFailLineFx }

/-- Witness: two failures for (10.0.0.5, root) are below a threshold of 3
and exactly meet a threshold of 2, emitting one event. -/
theorem authFailure_threshold_boundary_witness :
    checkSshFailures 3 (.ok sshWindowFx) = [] ∧
    checkSshFailures 2 (.ok sshWindowFx) = [sshFailureEvent "10.0.0.5" "root" 2 2] :=
  ⟨(authFailure_threshold_boundary 3 sshWindowFx "10.0.0.5" "root"
      [sshFailLineFx, sshFailLineFx] rfl (by decide)).1 (by decide),
   (authFailure_threshold_boundary 2 sshWindowFx "10.0.0.5" "root"
      [sshFailLineFx, sshFailLineFx] rfl (by decide)).2 (by decide)⟩

/-- Environment in which both auth journalctl calls raise. -/
def allFailAuthEnv (x : PyExn) : AuthEnv := ⟨.error x, .error x⟩

/-- Environment in which all four privilege-escalation commands raise. -/
def allFailPrivEnv (x : PyExn) : PrivEnv := ⟨.error x, .error x, .error x, .error x⟩

/-- Environment in which both suspicious-command scans raise. -/
def allFailSusEnv (x : PyExn) : SusEnv := ⟨.error x, .error x⟩

/-- Environment in which every network command raises. -/
def allFailNetEnv (x : PyExn) : NetEnv := ⟨.error x, fun _ => .error x, .error x, .error x⟩

/-- Environment in which every file read fails (`_get_file_hash` answers "")
and every directory iteration and ausearch call raises. -/
def allFailFsEnv (x : PyExn) : FsEnv :=
  ⟨fun _ => true, fun _ => "", fun _ => true, fun _ => .error x, .error x⟩

/-- C1: no detector's `detect()` lets an exception past its boundary — every
call returns `Except.ok` for every environment and state — and in the
environment where every external command, file read and stored-state load
fails, each detector yields the empty event list with its baseline intact,
staying usable for the next cycle. -/
theorem detect_never_raises
    (e1 e2 e3 e4 e5 checkSuid useAuditdS useAuditdF alertOnNew : Bool) (t : Nat)
    (matcher : String → String → Bool) (expected : Finset Nat)
    (aEnv : AuthEnv) (pEnv : PrivEnv) (sEnv : SusEnv) (nEnv : NetEnv) (fEnv : FsEnv)
    (knownSuid : Finset String) (knownPorts : Finset Nat) (st : HashMapL) (x : PyExn) :
    (∃ r, authDetect e1 t aEnv = .ok r) ∧
    (∃ r, privDetect e2 checkSuid pEnv knownSuid = .ok r) ∧
    (∃ r, susDetect matcher e3 useAuditdS sEnv = .ok r) ∧
    (∃ r, netDetect e4 alertOnNew expected nEnv knownPorts = .ok r) ∧
    (∃ r, fileDetect e5 useAuditdF fEnv st = .ok r) ∧
    authDetect true t (allFailAuthEnv x) = .ok [] ∧
    privDetect true true (allFailPrivEnv x) knownSuid = .ok ([], knownSuid) ∧
    susDetect matcher true true (allFailSusEnv x) = .ok [] ∧
    netDetect true true expected (allFailNetEnv x) knownPorts = .ok ([], ∅) ∧
    fileDetect true true (allFailFsEnv x) st = .ok ([], st) ∧
    loadHashes (.error x) = [] := by
  refine ⟨?_, ?_, ?_, ?_, ?_, ?_, ?_, ?_, ?_, ?_, rfl⟩
  · cases e1 <;> exact ⟨_, rfl⟩
  · cases e2 <;> cases checkSuid <;> exact ⟨_, rfl⟩
  · cases e3 <;> cases useAuditdS <;> exact ⟨_, rfl⟩
  · cases e4 <;> cases alertOnNew <;> exact ⟨_, rfl⟩
  · cases e5 <;> cases useAuditdF <;> exact ⟨_, rfl⟩
  · rfl
  · simp [privDetect, allFailPrivEnv, checkUnauthorizedSudo, checkUnauthorizedSudoBody,
      checkSuidChanges, getSuidFiles, checkSuUsage, checkSuUsageBody,
      Bind.bind, Except.bind, Finset.filter_empty, Finset.empty_sdiff]
  · rfl
  · simp [netDetect, allFailNetEnv, checkListeningPorts, getListeningPorts,
      checkOutboundConnections, checkOutboundConnectionsBody,
      checkPortScans, checkPortScansBody, Finset.empty_sdiff, Finset.sort_empty]
  · rfl

/-! ### Baseline idempotence machinery -/

theorem dictFind_dictInsert_self (m : HashMapL) (k v : String) :
    dictFind (dictInsert m k v) k = some v := by
  induction m with
  | nil => simp [dictInsert, dictFind]
  | cons kv rest ih =>
    by_cases hk : kv.1 = k
    · simp [dictInsert, dictFind, hk]
    · simp [dictInsert, dictFind, hk, ih]

theorem dictFind_dictInsert_ne (m : HashMapL) (k v k' : String) (h : k' ≠ k) :
    dictFind (dictInsert m k v) k' = dictFind m k' := by
  induction m with
  | nil => simp [dictInsert, dictFind, Ne.symm h]
  | cons kv rest ih =>
    by_cases hk : kv.1 = k
    · by_cases hk' : kv.1 = k'
      · exact absurd (hk'.symm.trans hk) h
      · simp [dictInsert, dictFind, hk, hk', Ne.symm h]
    · simp [dictInsert, dictFind, hk, ih]

/-- The state is at hash-equilibrium for path `p`. -/
def goodAt (env : FsEnv) (st : HashMapL) (p : String) : Prop :=
  dictFind st p = some (env.hash p)

/-- Equilibrium for a critical file: demanded only when the file exists and
is readable (otherwise the scan skips it). -/
def critGoodAt (env : FsEnv) (st : HashMapL) (p : String) : Prop :=
  env.exist p = true → env.hash p ≠ "" → goodAt env st p

/-- Equilibrium for a critical directory: demanded of every regular file its
glob yields, when the directory exists and its iteration succeeds. -/
def dirGood (env : FsEnv) (st : HashMapL) (d : String) : Prop :=
  env.dirExists d = true → ∀ es, env.glob d = .ok es →
    ∀ e ∈ es, e.isFile = true → goodAt env st e.path

/-- The only state mutation `_check_file_hashes` performs: storing the
current hash of some path. -/
def InsertStep (env : FsEnv) (st st' : HashMapL) : Prop :=
  ∃ q, st' = dictInsert st q (env.hash q)

/-- Some sequence of current-hash insertions. -/
def InsertReach (env : FsEnv) : HashMapL → HashMapL → Prop :=
  Relation.ReflTransGen (InsertStep env)

theorem goodAt_insertStep {env : FsEnv} {st st' : HashMapL} {p : String}
    (hs : InsertStep env st st') (h : goodAt env st p) : goodAt env st' p := by
  obtain ⟨q, rfl⟩ := hs
  by_cases hpq : p = q
  · subst hpq; exact dictFind_dictInsert_self st p (env.hash p)
  · unfold goodAt
    rw [dictFind_dictInsert_ne st q (env.hash q) p hpq]
    exact h

theorem goodAt_reach {env : FsEnv} {st st' : HashMapL} {p : String}
    (hr : InsertReach env st st') (h : goodAt env st p) : goodAt env st' p := by
  induction hr with
  | refl => exact h
  | tail _ hs ih => exact goodAt_insertStep hs ih

theorem critGoodAt_reach {env : FsEnv} {st st' : HashMapL} {p : String}
    (hr : InsertReach env st st') (h : critGoodAt env st p) : critGoodAt env st' p :=
  fun hex hh => goodAt_reach hr (h hex hh)

theorem dirGood_reach {env : FsEnv} {st st' : HashMapL} {d : String}
    (hr : InsertReach env st st') (h : dirGood env st d) : dirGood env st' d :=
  fun hex es hes e he hf => goodAt_reach hr (h hex es hes e he hf)

theorem stepCriticalFile_reach (env : FsEnv) (acc : List SecurityEvent × HashMapL)
    (p : String) : InsertReach env acc.2 (stepCriticalFile env acc p).2 := by
  cases hex : env.exist p with
  | false =>
    simp [stepCriticalFile, hex]
    exact .refl
  | true =>
    by_cases hh : env.hash p = ""
    · simp [stepCriticalFile, hex, hh]
      exact .refl
    · cases hfind : dictFind acc.2 p with
      | none =>
        simp [stepCriticalFile, hex, hh, hfind]
        exact Relation.ReflTransGen.single ⟨p, rfl⟩
      | some stored =>
        by_cases hs : stored = env.hash p
        · simp [stepCriticalFile, hex, hh, hfind, hs]
          exact .refl
        · simp [stepCriticalFile, hex, hh, hfind, hs]
          exact Relation.ReflTransGen.single ⟨p, rfl⟩

theorem stepDirFile_reach (env : FsEnv) (d : String) (acc : List SecurityEvent × HashMapL)
    (e : GlobEntry) : InsertReach env acc.2 (stepDirFile env d acc e).2 := by
  cases hf : e.isFile with
  | false =>
    simp [stepDirFile, hf]
    exact .refl
  | true =>
    cases hfind : dictFind acc.2 e.path with
    | none =>
      simp [stepDirFile, hf, hfind]
      exact Relation.ReflTransGen.single ⟨e.path, rfl⟩
    | some stored =>
      by_cases hs : stored = env.hash e.path
      · simp [stepDirFile, hf, hfind, hs]
        exact .refl
      · simp [stepDirFile, hf, hfind, hs]
        exact Relation.ReflTransGen.single ⟨e.path, rfl⟩

theorem foldl_stepDirFile_reach (env : FsEnv) (d : String) :
    ∀ (es : List GlobEntry) (acc : List SecurityEvent × HashMapL),
      InsertReach env acc.2 ((es.foldl (stepDirFile env d) acc)).2 := by
  intro es
  induction es with
  | nil => intro acc; exact .refl
  | cons e rest ih =>
    intro acc
    exact (stepDirFile_reach env d acc e).trans (ih _)

theorem stepCriticalDir_reach (env : FsEnv) (acc : List SecurityEvent × HashMapL)
    (d : String) : InsertReach env acc.2 (stepCriticalDir env acc d).2 := by
  unfold stepCriticalDir
  split
  · exact .refl
  · split
    · exact .refl
    · exact foldl_stepDirFile_reach env d _ acc

theorem foldl_stepCriticalFile_reach (env : FsEnv) :
    ∀ (l : List String) (acc : List SecurityEvent × HashMapL),
      InsertReach env acc.2 ((l.foldl (stepCriticalFile env) acc)).2 := by
  intro l
  induction l with
  | nil => intro acc; exact .refl
  | cons p rest ih =>
    intro acc
    exact (stepCriticalFile_reach env acc p).trans (ih _)

theorem foldl_stepCriticalDir_reach (env : FsEnv) :
    ∀ (ds : List String) (acc : List SecurityEvent × HashMapL),
      InsertReach env acc.2 ((ds.foldl (stepCriticalDir env) acc)).2 := by
  intro ds
  induction ds with
  | nil => intro acc; exact .refl
  | cons d rest ih =>
    intro acc
    exact (stepCriticalDir_reach env acc d).trans (ih _)

theorem stepCriticalFile_good (env : FsEnv) (acc : List SecurityEvent × HashMapL)
    (p : String) : critGoodAt env (stepCriticalFile env acc p).2 p := by
  intro hex hh
  cases hfind : dictFind acc.2 p with
  | none =>
    simp [stepCriticalFile, hex, hh, hfind]
    exact dictFind_dictInsert_self acc.2 p (env.hash p)
  | some stored =>
    by_cases hs : stored = env.hash p
    · simp [stepCriticalFile, hex, hh, hfind, hs]
      rw [goodAt, hfind, hs]
    · simp [stepCriticalFile, hex, hh, hfind, hs]
      exact dictFind_dictInsert_self acc.2 p (env.hash p)

theorem stepCriticalFile_of_good (env : FsEnv) (acc : List SecurityEvent × HashMapL)
    (p : String) (h : critGoodAt env acc.2 p) : stepCriticalFile env acc p = acc := by
  cases hex : env.exist p with
  | false => simp [stepCriticalFile, hex]
  | true =>
    by_cases hh : env.hash p = ""
    · simp [stepCriticalFile, hex, hh]
    · have hg : dictFind acc.2 p = some (env.hash p) := h hex hh
      simp [stepCriticalFile, hex, hh, hg]

theorem stepDirFile_good (env : FsEnv) (d : String) (acc : List SecurityEvent × HashMapL)
    (e : GlobEntry) (hf : e.isFile = true) : goodAt env (stepDirFile env d acc e).2 e.path := by
  cases hfind : dictFind acc.2 e.path with
  | none =>
    simp [stepDirFile, hf, hfind]
    exact dictFind_dictInsert_self acc.2 e.path (env.hash e.path)
  | some stored =>
    by_cases hs : stored = env.hash e.path
    · simp [stepDirFile, hf, hfind, hs]
      rw [goodAt, hfind, hs]
    · simp [stepDirFile, hf, hfind, hs]
      exact dictFind_dictInsert_self acc.2 e.path (env.hash e.path)

theorem stepDirFile_of_good (env : FsEnv) (d : String) (acc : List SecurityEvent × HashMapL)
    (e : GlobEntry) (h : e.isFile = true → goodAt env acc.2 e.path) :
    stepDirFile env d acc e = acc := by
  cases hf : e.isFile with
  | false => simp [stepDirFile, hf]
  | true =>
    have hg : dictFind acc.2 e.path = some (env.hash e.path) := h hf
    simp [stepDirFile, hf, hg]

theorem foldl_stepDirFile_good (env : FsEnv) (d : String) :
    ∀ (es : List GlobEntry) (acc : List SecurityEvent × HashMapL),
      ∀ e ∈ es, e.isFile = true →
        goodAt env ((es.foldl (stepDirFile env d) acc)).2 e.path := by
  intro es
  induction es with
  | nil => simp
  | cons e0 rest ih =>
    intro acc e he hf
    rw [List.foldl_cons]
    rcases List.mem_cons.1 he with rfl | he'
    · exact goodAt_reach (foldl_stepDirFile_reach env d rest _)
        (stepDirFile_good env d acc e hf)
    · exact ih _ e he' hf

theorem foldl_stepDirFile_id (env : FsEnv) (d : String) :
    ∀ (es : List GlobEntry) (acc : List SecurityEvent × HashMapL),
      (∀ e ∈ es, e.isFile = true → goodAt env acc.2 e.path) →
      es.foldl (stepDirFile env d) acc = acc := by
  intro es
  induction es with
  | nil => intro acc _; rfl
  | cons e0 rest ih =>
    intro acc h
    rw [List.foldl_cons, stepDirFile_of_good env d acc e0 (h e0 (List.mem_cons_self _ _))]
    exact ih acc (fun e he => h e (List.mem_cons_of_mem _ he))

theorem stepCriticalDir_good (env : FsEnv) (acc : List SecurityEvent × HashMapL)
    (d : String) : dirGood env (stepCriticalDir env acc d).2 d := by
  intro hex es hes
  simp [stepCriticalDir, hex, hes]
  exact fun e he hf => foldl_stepDirFile_good env d es acc e he hf

theorem stepCriticalDir_of_good (env : FsEnv) (acc : List SecurityEvent × HashMapL)
    (d : String) (h : dirGood env acc.2 d) : stepCriticalDir env acc d = acc := by
  cases hex : env.dirExists d with
  | false => simp [stepCriticalDir, hex]
  | true =>
    cases hglob : env.glob d with
    | error err => simp [stepCriticalDir, hex, hglob]
    | ok es =>
      simp [stepCriticalDir, hex, hglob]
      exact foldl_stepDirFile_id env d es acc (h hex es hglob)

theorem foldl_stepCriticalFile_good (env : FsEnv) :
    ∀ (l : List String) (acc : List SecurityEvent × HashMapL),
      ∀ p ∈ l, critGoodAt env ((l.foldl (stepCriticalFile env) acc)).2 p := by
  intro l
  induction l with
  | nil => simp
  | cons q rest ih =>
    intro acc p hp
    rw [List.foldl_cons]
    rcases List.mem_cons.1 hp with rfl | hp'
    · exact critGoodAt_reach (foldl_stepCriticalFile_reach env rest _)
        (stepCriticalFile_good env acc p)
    · exact ih _ p hp'

theorem foldl_stepCriticalFile_id (env : FsEnv) :
    ∀ (l : List String) (acc : List SecurityEvent × HashMapL),
      (∀ p ∈ l, critGoodAt env acc.2 p) →
      l.foldl (stepCriticalFile env) acc = acc := by
  intro l
  induction l with
  | nil => intro acc _; rfl
  | cons q rest ih =>
    intro acc h
    rw [List.foldl_cons, stepCriticalFile_of_good env acc q (h q (List.mem_cons_self _ _))]
    exact ih acc (fun p hp => h p (List.mem_cons_of_mem _ hp))

theorem foldl_stepCriticalDir_good (env : FsEnv) :
    ∀ (ds : List String) (acc : List SecurityEvent × HashMapL),
      ∀ d ∈ ds, dirGood env ((ds.foldl (stepCriticalDir env) acc)).2 d := by
  intro ds
  induction ds with
  | nil => simp
  | cons d0 rest ih =>
    intro acc d hd
    rw [List.foldl_cons]
    rcases List.mem_cons.1 hd with rfl | hd'
    · exact dirGood_reach (foldl_stepCriticalDir_reach env rest _)
        (stepCriticalDir_good env acc d)
    · exact ih _ d hd'

theorem foldl_stepCriticalDir_id (env : FsEnv) :
    ∀ (ds : List String) (acc : List SecurityEvent × HashMapL),
      (∀ d ∈ ds, dirGood env acc.2 d) →
      ds.foldl (stepCriticalDir env) acc = acc := by
  intro ds
  induction ds with
  | nil => intro acc _; rfl
  | cons d0 rest ih =>
    intro acc h
    rw [List.foldl_cons, stepCriticalDir_of_good env acc d0 (h d0 (List.mem_cons_self _ _))]
    exact ih acc (fun d hd => h d (List.mem_cons_of_mem _ hd))

/-- A hash-check pass leaves every critical file at equilibrium. -/
theorem checkFileHashes_critGood (env : FsEnv) (st : HashMapL) :
    ∀ p ∈ CRITICAL_FILES, critGoodAt env (checkFileHashes env st).2 p := by
  intro p hp
  exact critGoodAt_reach
    (foldl_stepCriticalDir_reach env CRITICAL_DIRS
      (CRITICAL_FILES.foldl (stepCriticalFile env) ([], st)))
    (foldl_stepCriticalFile_good env CRITICAL_FILES ([], st) p hp)

/-- A hash-check pass leaves every critical directory at equilibrium. -/
theorem checkFileHashes_dirGood (env : FsEnv) (st : HashMapL) :
    ∀ d ∈ CRITICAL_DIRS, dirGood env (checkFileHashes env st).2 d := by
  intro d hd
  exact foldl_stepCriticalDir_good env CRITICAL_DIRS
    (CRITICAL_FILES.foldl (stepCriticalFile env) ([], st)) d hd

/-- A second hash-check pass over the advanced baseline is a no-op. -/
theorem checkFileHashes_idem (env : FsEnv) (st : HashMapL) :
    checkFileHashes env (checkFileHashes env st).2 = ([], (checkFileHashes env st).2) := by
  conv_lhs => rw [checkFileHashes]
  rw [foldl_stepCriticalFile_id env CRITICAL_FILES ([], (checkFileHashes env st).2)
        (fun p hp => checkFileHashes_critGood env st p hp),
      foldl_stepCriticalDir_id env CRITICAL_DIRS ([], (checkFileHashes env st).2)
        (fun d hd => checkFileHashes_dirGood env st d hd)]

/-- A second SUID diff against the advanced baseline finds nothing. -/
theorem checkSuidChanges_idem (r4000 r2000 : CmdOutcome) (known : Finset String) :
    checkSuidChanges r4000 r2000 (checkSuidChanges r4000 r2000 known).2 =
      ([], (checkSuidChanges r4000 r2000 known).2) := by
  unfold checkSuidChanges
  by_cases h : getSuidFiles r4000 r2000 \ known = ∅
  · simp [h]
  · simp [h, Finset.sdiff_self]

/-- A second listener diff against the advanced baseline finds nothing. -/
theorem checkListeningPorts_idem (expected : Finset Nat) (ssListen : CmdOutcome)
    (ssProc : Nat → CmdOutcome) (known : Finset Nat) :
    checkListeningPorts expected ssListen ssProc
        (checkListeningPorts expected ssListen ssProc known).2 =
      ([], (checkListeningPorts expected ssListen ssProc known).2) := by
  unfold checkListeningPorts
  simp [Finset.sdiff_self, Finset.sort_empty]

/-- C2: for each baseline-carrying check (SUID set, listener set, file-hash
map), a second run over unchanged underlying state — the same command
outcomes and filesystem answers — emits zero events and leaves the advanced
baseline fixed: the baseline moves in the same cycle that reports the
difference, so diffing is idempotent. -/
theorem baseline_diffing_idempotent
    (r4000 r2000 : CmdOutcome) (knownSuid : Finset String)
    (expected : Finset Nat) (ssListen : CmdOutcome) (ssProc : Nat → CmdOutcome)
    (knownPorts : Finset Nat) (env : FsEnv) (st : HashMapL) :
    checkSuidChanges r4000 r2000 (checkSuidChanges r4000 r2000 knownSuid).2 =
      ([], (checkSuidChanges r4000 r2000 knownSuid).2) ∧
    checkListeningPorts expected ssListen ssProc
        (checkListeningPorts expected ssListen ssProc knownPorts).2 =
      ([], (checkListeningPorts expected ssListen ssProc knownPorts).2) ∧
    checkFileHashes env (checkFileHashes env st).2 = ([], (checkFileHashes env st).2) :=
  ⟨checkSuidChanges_idem r4000 r2000 knownSuid,
   checkListeningPorts_idem expected ssListen ssProc knownPorts,
   checkFileHashes_idem env st⟩

/-- A filesystem snapshot in which only /etc/passwd exists, hashing to `h`;
no critical directory exists and the auditd check is unavailable. -/
def passwdOnlyEnv (h : String) : FsEnv where
  exist := fun p => p == "/etc/passwd"
  hash := fun p => if p == "/etc/passwd" then h else ""
  dirExists := fun _ => false
  glob := fun _ => .error (.err "unreached")
  ausearch := .error (.err "ausearch unavailable")

/-- C4: on first observation of a tracked critical file the hash check emits
nothing and only records the baseline; a later observation with a different
content hash emits exactly one `critical` `file_change` event whose details
carry the old hash as `previous_hash` and the new one as `current_hash`, and
advances the baseline to the new hash. -/
theorem fileChange_baseline_then_alert (h h' : String)
    (h0 : h ≠ "") (h1 : h' ≠ "") (hne : h ≠ h') :
    checkFileHashes (passwdOnlyEnv h) [] = ([], [("/etc/passwd", h)]) ∧
    checkFileHashes (passwdOnlyEnv h') [("/etc/passwd", h)] =
      ([fileChangeCriticalEvent "/etc/passwd" h h'], [("/etc/passwd", h')]) ∧
    (fileChangeCriticalEvent "/etc/passwd" h h').severity = "critical" ∧
    (fileChangeCriticalEvent "/etc/passwd" h h').event_type = "file_change" := by
  refine ⟨?_, ?_, rfl, rfl⟩
  · simp [checkFileHashes, CRITICAL_FILES, CRITICAL_DIRS, stepCriticalFile,
      stepCriticalDir, passwdOnlyEnv, dictFind, dictInsert, h0]
  · simp [checkFileHashes, CRITICAL_FILES, CRITICAL_DIRS, stepCriticalFile,
      stepCriticalDir, passwdOnlyEnv, dictFind, dictInsert, h1, hne]

/-- Witness: concrete hashes "a" then "b" for /etc/passwd. -/
theorem fileChange_baseline_then_alert_witness :
    checkFileHashes (passwdOnlyEnv "a") [] = ([], [("/etc/passwd", "a")]) ∧
    checkFileHashes (passwdOnlyEnv "b") [("/etc/passwd", "a")] =
      ([fileChangeCriticalEvent "/etc/passwd" "a" "b"], [("/etc/passwd", "b")]) ∧
    (fileChangeCriticalEvent "/etc/passwd" "a" "b").severity = "critical" ∧
    (fileChangeCriticalEvent "/etc/passwd" "a" "b").event_type = "file_change" :=
  fileChange_baseline_then_alert "a" "b" (by decide) (by decide) (by decide)

end Sams
